import Mathlib

/-!
Verification development for the otelpgx instrumentation library.

Go strings are modelled as `List Char` (one entry per rune); Go string
literals enter the development through `String.data`.  Fallible Go code
(out-of-range indexing, nil-pointer dereference) is modelled with
`Option`, where `none` stands for a runtime panic.
-/

namespace Otelpgx

/-- Str models a Go string as its list of runes. -/
abbrev Str := List Char

/-- goIsSpace models Go's unicode.IsSpace: the Unicode White_Space property. -/
def goIsSpace (c : Char) : Bool :=
  c = ' ' || c = '\t' || c = '\n' || c.toNat = 11 || c.toNat = 12 || c = '\r' ||
  c.toNat = 0x85 || c.toNat = 0xA0 || c.toNat = 0x1680 ||
  (0x2000 ≤ c.toNat && c.toNat ≤ 0x200A) ||
  c.toNat = 0x2028 || c.toNat = 0x2029 ||
  c.toNat = 0x202F || c.toNat = 0x205F || c.toNat = 0x3000

/-- startsWithL models Go's strings.HasPrefix. -/
def startsWithL : Str → Str → Bool
  | [], _ => true
  | _ :: _, [] => false
  | p :: ps, c :: cs => p = c && startsWithL ps cs

/-- splitOnChar models Go's strings.Split with a one-rune separator
(used with "\n" and " " in the source). -/
def splitOnChar (sep : Char) : Str → List Str
  | [] => [[]]
  | c :: rest =>
    match splitOnChar sep rest with
    | [] => [[c]]
    | w :: ws => if c = sep then [] :: w :: ws else (c :: w) :: ws

/-- trimL models Go's strings.TrimSpace. -/
def trimL (s : Str) : Str :=
  ((s.dropWhile goIsSpace).reverse.dropWhile goIsSpace).reverse

/-- goToUpperChar uppercases one rune (the ASCII fragment of Go's case table,
which is all the source's callers rely on). -/
def goToUpperChar (c : Char) : Char :=
  if 'a' ≤ c && c ≤ 'z' then Char.ofNat (c.toNat - 32) else c

/-- goToUpper models Go's strings.ToUpper, rune by rune. -/
def goToUpper (s : Str) : Str := s.map goToUpperChar

/-- fieldsGo is the accumulator loop behind goFields. -/
def fieldsGo : Str → Str → List Str
  | [], acc => if acc.isEmpty then [] else [acc.reverse]
  | c :: rest, acc =>
    if goIsSpace c then
      if acc.isEmpty then fieldsGo rest []
      else acc.reverse :: fieldsGo rest []
    else fieldsGo rest (c :: acc)

/-- goFields models Go's strings.Fields / strings.FieldsSeq: the maximal
runs of non-whitespace runes, in order. -/
def goFields (s : Str) : List Str := fieldsGo s []

/-- firstToken is the first whitespace-delimited token of a statement
(the spec's wording), written independently of both implementations:
skip leading whitespace, then take the run of non-whitespace runes. -/
def firstToken (s : Str) : Str :=
  (s.dropWhile goIsSpace).takeWhile (fun c => !(goIsSpace c))

/-- indexFunc models Go's strings.IndexFunc: the position of the first rune
satisfying the predicate, `none` for Go's -1. -/
def indexFunc (p : Char → Bool) : Str → Option Nat
  | [] => none
  | c :: rest => if p c then some 0 else (indexFunc p rest).map (· + 1)

/-- sqlOperationUnknown is the fixed sentinel label. -/
def sqlOperationUnknown : Str := "UNKNOWN".data

/-- sqlOperationNameDefault is the default branch of the Go 1.24
`(*Tracer).sqlOperationName` (operation_name_go124.go): the first word
yielded by strings.FieldsSeq upper-cased, or the sentinel when there is
no word. -/
def sqlOperationNameDefault (stmt : Str) : Str :=
  match goFields stmt with
  | [] => sqlOperationUnknown
  | word :: _ => goToUpper word

/-- sqlOperationName models the Go 1.24 `(*Tracer).sqlOperationName`
method: a configured span-name function wins, otherwise the default
FieldsSeq-based extraction runs. -/
def sqlOperationName (spanNameFn : Option (Str → Str)) (stmt : Str) : Str :=
  match spanNameFn with
  | some f => f stmt
  | none => sqlOperationNameDefault stmt

/-- defaultSpanNameCtxFunc models the legacy implementation
(operation_name_legacy.go): TrimSpace, then cut at the first
unicode.IsSpace rune found by strings.IndexFunc; the sentinel when the
trimmed statement is empty. -/
def defaultSpanNameCtxFunc (stmt : Str) : Str :=
  let s := trimL stmt
  match indexFunc goIsSpace s with
  | some e => goToUpper (s.take e)
  | none =>
    if s.length > 0 then goToUpper s
    else sqlOperationUnknown

/-- markerOf models the switch at the top of defaultSpanNameFunc's line
loop: the recognized comment marker the line begins with, if any. -/
def markerOf (line : Str) : Option Str :=
  if startsWithL "--".data line then some "--".data
  else if startsWithL "/*".data line then some "/*".data
  else if startsWithL "#".data line then some "#".data
  else none

/-- spanNameFromLines is the per-line loop of defaultSpanNameFunc
(the annotation-aware policy from the test file).  The result is
`none` exactly when the Go code would panic with an index-out-of-range
on `part[2]` or `part[3]`. -/
def spanNameFromLines : List Str → Option Str
  | [] => some sqlOperationUnknown
  | line :: rest =>
    match markerOf line with
    | none => spanNameFromLines rest
    | some marker =>
      let restStr := line.drop marker.length
      if ¬ startsWithL "name".data (trimL restStr) then spanNameFromLines rest
      else if ¬ restStr.contains ':' then spanNameFromLines rest
      else if ¬ startsWithL " name: ".data restStr then some sqlOperationUnknown
      else
        let part := splitOnChar ' ' (trimL line)
        let part := if marker = "/*".data then part.dropLast else part
        if part.length = 2 then some sqlOperationUnknown
        else
          match part[2]?, part[3]? with
          | some queryName, some queryType =>
            some (queryName ++ [' '] ++ trimL queryType)
          | _, _ => none

/-- defaultSpanNameFunc models the annotation-aware naming policy
(`defaultSpanNameFunc` in the test file): scan the statement's lines for
a recognized comment marker carrying a " name: " annotation. -/
def defaultSpanNameFunc (query : Str) : Option Str :=
  spanNameFromLines (splitOnChar '\n' query)

/-! ## Errors

GoErr models the Go `error` values flowing through the end hooks:
the database/sql "no rows" sentinel, pgconn's *PgError carrying an
SQLSTATE code, plain errors, and fmt.Errorf("%w") wrapping.  A nilable
`error` is `Option GoErr`. -/

inductive GoErr where
  | errNoRows
  | pgError (code : Str) (msg : Str)
  | strError (msg : Str)
  | wrap (msg : Str) (inner : GoErr)
  | wrapMetric (name : Str) (inner : GoErr)
deriving DecidableEq

/-- isNoRows models errors.Is(err, sql.ErrNoRows): true when the error is
the sentinel or wraps it. -/
def isNoRows : GoErr → Bool
  | .errNoRows => true
  | .wrap _ inner => isNoRows inner
  | .wrapMetric _ inner => isNoRows inner
  | _ => false

/-- asPgError models errors.As(err, &pgErr): the SQLSTATE code of the first
*PgError in the unwrap chain. -/
def asPgError : GoErr → Option Str
  | .pgError code _ => some code
  | .wrap _ inner => asPgError inner
  | .wrapMetric _ inner => asPgError inner
  | _ => none

/-- errMsg models err.Error(). -/
def errMsg : GoErr → Str
  | .errNoRows => "sql: no rows in result set".data
  | .pgError _ msg => msg
  | .strError msg => msg
  | .wrap msg inner => msg ++ errMsg inner
  | .wrapMetric name inner =>
    "failed to create asynchronous metric: ".data ++ name ++
      " with error: ".data ++ errMsg inner

/-! ## Attributes and spans -/

/-- AttrVal is an OpenTelemetry attribute value as used by the tracer. -/
inductive AttrVal where
  | str (v : Str)
  | int (v : Int)
  | strList (v : List Str)
deriving DecidableEq

/-- Attr is an OpenTelemetry key-value attribute. -/
structure Attr where
  key : Str
  val : AttrVal
deriving DecidableEq

def dbSystemPostgreSQL : Attr := ⟨"db.system".data, .str "postgresql".data⟩
def serverAddressAttr (host : Str) : Attr := ⟨"server.address".data, .str host⟩
def serverPortAttr (port : Nat) : Attr := ⟨"server.port".data, .int port⟩
def userNameAttr (user : Str) : Attr := ⟨"user.name".data, .str user⟩
def dbNamespaceAttr (db : Str) : Attr := ⟨"db.namespace".data, .str db⟩
def dbQueryTextAttr (sql : Str) : Attr := ⟨"db.query.text".data, .str sql⟩
def dbOperationNameAttr (name : Str) : Attr := ⟨"db.operation.name".data, .str name⟩
def dbCollectionNameAttr (table : Str) : Attr := ⟨"db.collection.name".data, .str table⟩
def dbOperationBatchSizeAttr (size : Nat) : Attr := ⟨"db.operation.batch_size".data, .int size⟩
def rowsAffectedAttr (n : Int) : Attr := ⟨"pgx.rows_affected".data, .int n⟩
def prepareStmtNameAttr (name : Str) : Attr := ⟨"pgx.prepare_stmt.name".data, .str name⟩
def sqlStateAttr (code : Str) : Attr := ⟨"pgx.sql_state".data, .str code⟩

/-- makeParamsAttribute models the Go helper of the same name; the
per-argument fmt.Sprintf("%+v") stringification is external, so the
arguments arrive already stringified. -/
def makeParamsAttribute (args : List Str) : Attr :=
  ⟨"pgx.query.parameters".data, .strList args⟩

/-- SpanStatus is the status of a span: unset, or Error with description. -/
inductive SpanStatus where
  | unset
  | error (description : Str)
deriving DecidableEq

/-- Span is the backend-side state of one span, as far as the tracer
mutates it: recorded error events, status, attributes, and whether End()
was called. -/
structure Span where
  recordedErrors : List GoErr
  status : SpanStatus
  attrs : List Attr
  ended : Bool
deriving DecidableEq

/-- ConnConfig carries the connection facts read from *pgx.ConnConfig. -/
structure ConnConfig where
  host : Str
  port : Nat
  user : Str
  database : Str
deriving DecidableEq

/-- connectionAttributesFromConfig models the helper of the same name in
tracer.go; a nil config yields no attributes. -/
def connectionAttributesFromConfig : Option ConnConfig → List Attr
  | some config =>
    [dbSystemPostgreSQL,
     serverAddressAttr config.host,
     serverPortAttr config.port,
     userNameAttr config.user,
     dbNamespaceAttr config.database]
  | none => []

/-! ## Context, metrics, and the tracer configuration -/

/-- CtxEntry is one context.WithValue layer: the tracer's start-timestamp
value, or the active span installed by tracer.Start (with its recording
flag). -/
inductive CtxEntry where
  | startTime (t : Nat)
  | activeSpan (recording : Bool)
deriving DecidableEq

/-- Ctx models a Go context.Context as its chain of values, innermost
first. -/
abbrev Ctx := List CtxEntry

/-- lookupStartTime models ctx.Value(startTimeCtxKey{}).(time.Time):
the innermost start-time entry. -/
def lookupStartTime : Ctx → Option Nat
  | [] => none
  | .startTime t :: _ => some t
  | _ :: rest => lookupStartTime rest

/-- isRecordingCtx models trace.SpanFromContext(ctx).IsRecording(): the
innermost span's recording flag, false when there is no span (noop span). -/
def isRecordingCtx : Ctx → Bool
  | [] => false
  | .activeSpan r :: _ => r
  | _ :: rest => isRecordingCtx rest

/-- PgxOperation is the operation-kind dimension of the metrics. -/
inductive PgxOperation where
  | query
  | copy
  | batch
  | connect
  | prepare
  | acquire
deriving DecidableEq

/-- Metrics is the event log of the two cross-cutting instruments: each
operation-errors Add(1) and each operation-duration Record(sample),
keyed by operation kind.  Duration samples are in milliseconds. -/
structure Metrics where
  errEvents : List PgxOperation
  durations : List (PgxOperation × Nat)
deriving DecidableEq

/-- TracerState is the frozen configuration of a Tracer. -/
structure TracerState where
  tracerAttrs : List Attr
  trimQuerySpanName : Bool
  spanNameFunc : Str → Str
  prefixQuerySpanName : Bool
  logSQLStatement : Bool
  logConnectionDetails : Bool
  includeParams : Bool

/-- StartedSpan records one tracer.Start call: the chosen span name and
the attributes handed to it. -/
structure StartedSpan where
  name : Str
  attrs : List Attr
deriving DecidableEq

/-! ## End-hook helpers (tracer.go) -/

/-- recordSpanError models tracer.go's recordSpanError: a no-op for nil
or sql.ErrNoRows; otherwise records the error, sets Error status, and
attaches pgx.sql_state when the error carries a *PgError. -/
def recordSpanError (span : Span) (err : Option GoErr) : Span :=
  match err with
  | some e =>
    if isNoRows e then span
    else
      let s := { span with
        recordedErrors := span.recordedErrors ++ [e],
        status := .error (errMsg e) }
      match asPgError e with
      | some code => { s with attrs := s.attrs ++ [sqlStateAttr code] }
      | none => s
  | none => span

/-- incrementOperationErrorCount models the method of the same name:
Add(1) on the operation-errors counter for non-nil, non-ErrNoRows
errors. -/
def incrementOperationErrorCount (m : Metrics) (err : Option GoErr)
    (op : PgxOperation) : Metrics :=
  match err with
  | some e =>
    if isNoRows e then m
    else { m with errEvents := m.errEvents ++ [op] }
  | none => m

/-- recordOperationDuration models the method of the same name: when the
context carries the start timestamp, record time.Since(start) in
milliseconds on the duration histogram. -/
def recordOperationDuration (m : Metrics) (ctx : Ctx) (now : Nat)
    (op : PgxOperation) : Metrics :=
  match lookupStartTime ctx with
  | some t0 => { m with durations := m.durations ++ [(op, (now - t0) / 1000000)] }
  | none => m

/-! ## Start hooks (tracer.go)

Each start hook returns the new context together with the list of spans
it started (empty on the short-circuit path).  `now` is the value of
time.Now() in nanoseconds.  The sync.Pool buffer reuse of the source is
an allocation detail with no observable effect on the assembled lists
and is not modelled. -/

/-- TraceQueryStart models the hook of the same name. -/
def TraceQueryStart (t : TracerState) (ctx : Ctx) (now : Nat)
    (conn : Option ConnConfig) (sql : Str) (args : List Str) :
    Ctx × List StartedSpan :=
  let ctx := CtxEntry.startTime now :: ctx
  if ¬ isRecordingCtx ctx then (ctx, [])
  else
    let attrs := t.tracerAttrs
      ++ (if t.logConnectionDetails ∧ conn.isSome then
            connectionAttributesFromConfig conn else [])
      ++ (if t.logSQLStatement then
            [dbQueryTextAttr sql, dbOperationNameAttr (t.spanNameFunc sql)]
              ++ (if t.includeParams then [makeParamsAttribute args] else [])
          else [])
    let spanName := if t.trimQuerySpanName then t.spanNameFunc sql else sql
    let spanName := if t.prefixQuerySpanName then "query ".data ++ spanName else spanName
    (CtxEntry.activeSpan true :: ctx, [⟨spanName, attrs⟩])

/-- TraceCopyFromStart models the hook of the same name; `tableSan` is
data.TableName.Sanitize(), computed by pgx. -/
def TraceCopyFromStart (t : TracerState) (ctx : Ctx) (now : Nat)
    (conn : Option ConnConfig) (tableSan : Str) :
    Ctx × List StartedSpan :=
  let ctx := CtxEntry.startTime now :: ctx
  if ¬ isRecordingCtx ctx then (ctx, [])
  else
    let attrs := t.tracerAttrs
      ++ [dbCollectionNameAttr tableSan]
      ++ (if t.logConnectionDetails ∧ conn.isSome then
            connectionAttributesFromConfig conn else [])
    (CtxEntry.activeSpan true :: ctx, [⟨"copy_from ".data ++ tableSan, attrs⟩])

/-- TraceBatchStart models the hook of the same name; `batchLen` is
data.Batch.Len() when the batch is non-nil. -/
def TraceBatchStart (t : TracerState) (ctx : Ctx) (now : Nat)
    (conn : Option ConnConfig) (batchLen : Option Nat) :
    Ctx × List StartedSpan :=
  let ctx := CtxEntry.startTime now :: ctx
  if ¬ isRecordingCtx ctx then (ctx, [])
  else
    let size := batchLen.getD 0
    let attrs := t.tracerAttrs
      ++ [dbOperationBatchSizeAttr size]
      ++ (if t.logConnectionDetails ∧ conn.isSome then
            connectionAttributesFromConfig conn else [])
    (CtxEntry.activeSpan true :: ctx, [⟨"batch start".data, attrs⟩])

/-- TraceConnectStart models the hook of the same name. -/
def TraceConnectStart (t : TracerState) (ctx : Ctx) (now : Nat)
    (connConfig : Option ConnConfig) :
    Ctx × List StartedSpan :=
  let ctx := CtxEntry.startTime now :: ctx
  if ¬ isRecordingCtx ctx then (ctx, [])
  else
    let attrs := t.tracerAttrs
      ++ (if t.logConnectionDetails ∧ connConfig.isSome then
            connectionAttributesFromConfig connConfig else [])
    (CtxEntry.activeSpan true :: ctx, [⟨"connect".data, attrs⟩])

/-- TracePrepareStart models the hook of the same name. -/
def TracePrepareStart (t : TracerState) (ctx : Ctx) (now : Nat)
    (conn : Option ConnConfig) (name : Str) (sql : Str) :
    Ctx × List StartedSpan :=
  let ctx := CtxEntry.startTime now :: ctx
  if ¬ isRecordingCtx ctx then (ctx, [])
  else
    let attrs := t.tracerAttrs
      ++ (if name ≠ [] then [prepareStmtNameAttr name] else [])
      ++ (if t.logConnectionDetails ∧ conn.isSome then
            connectionAttributesFromConfig conn else [])
      ++ [dbOperationNameAttr (t.spanNameFunc sql)]
      ++ (if t.logSQLStatement then [dbQueryTextAttr sql] else [])
    let spanName := if t.trimQuerySpanName then t.spanNameFunc sql else sql
    let spanName := if t.prefixQuerySpanName then "prepare ".data ++ spanName else spanName
    (CtxEntry.activeSpan true :: ctx, [⟨spanName, attrs⟩])

/-- TraceAcquireStart models the hook of the same name; `poolConnConfig`
is pool.Config().ConnConfig when the whole chain is non-nil. -/
def TraceAcquireStart (t : TracerState) (ctx : Ctx) (now : Nat)
    (poolConnConfig : Option ConnConfig) :
    Ctx × List StartedSpan :=
  let ctx := CtxEntry.startTime now :: ctx
  if ¬ isRecordingCtx ctx then (ctx, [])
  else
    let attrs := t.tracerAttrs
      ++ (if t.logConnectionDetails ∧ poolConnConfig.isSome then
            connectionAttributesFromConfig poolConnConfig else [])
    (CtxEntry.activeSpan true :: ctx, [⟨"pool.acquire".data, attrs⟩])

/-! ## End hooks (tracer.go)

Each end hook acts on the span bound to the context (`span` is the state
of trace.SpanFromContext(ctx)) and on the metrics event log; `now` is
the time of the end call in nanoseconds. -/

/-- TraceQueryEnd models the hook of the same name. -/
def TraceQueryEnd (ctx : Ctx) (span : Span) (err : Option GoErr)
    (rowsAffected : Int) (now : Nat) (m : Metrics) : Span × Metrics :=
  let span := recordSpanError span err
  let m := incrementOperationErrorCount m err .query
  let span := if err.isNone then
      { span with attrs := span.attrs ++ [rowsAffectedAttr rowsAffected] }
    else span
  let span := { span with ended := true }
  (span, recordOperationDuration m ctx now .query)

/-- TraceCopyFromEnd models the hook of the same name. -/
def TraceCopyFromEnd (ctx : Ctx) (span : Span) (err : Option GoErr)
    (rowsAffected : Int) (now : Nat) (m : Metrics) : Span × Metrics :=
  let span := recordSpanError span err
  let m := incrementOperationErrorCount m err .copy
  let span := if err.isNone then
      { span with attrs := span.attrs ++ [rowsAffectedAttr rowsAffected] }
    else span
  let span := { span with ended := true }
  (span, recordOperationDuration m ctx now .copy)

/-- TraceBatchEnd models the hook of the same name. -/
def TraceBatchEnd (ctx : Ctx) (span : Span) (err : Option GoErr)
    (now : Nat) (m : Metrics) : Span × Metrics :=
  let span := recordSpanError span err
  let m := incrementOperationErrorCount m err .batch
  let span := { span with ended := true }
  (span, recordOperationDuration m ctx now .batch)

/-- TraceConnectEnd models the hook of the same name. -/
def TraceConnectEnd (ctx : Ctx) (span : Span) (err : Option GoErr)
    (now : Nat) (m : Metrics) : Span × Metrics :=
  let span := recordSpanError span err
  let m := incrementOperationErrorCount m err .connect
  let span := { span with ended := true }
  (span, recordOperationDuration m ctx now .connect)

/-- TracePrepareEnd models the hook of the same name. -/
def TracePrepareEnd (ctx : Ctx) (span : Span) (err : Option GoErr)
    (now : Nat) (m : Metrics) : Span × Metrics :=
  let span := recordSpanError span err
  let m := incrementOperationErrorCount m err .prepare
  let span := { span with ended := true }
  (span, recordOperationDuration m ctx now .prepare)

/-- TraceAcquireEnd models the hook of the same name. -/
def TraceAcquireEnd (ctx : Ctx) (span : Span) (err : Option GoErr)
    (now : Nat) (m : Metrics) : Span × Metrics :=
  let span := recordSpanError span err
  let m := incrementOperationErrorCount m err .acquire
  let span := { span with ended := true }
  (span, recordOperationDuration m ctx now .acquire)

/-! ## Stats sampler (recordStats)

The sampler registers twelve observable instruments and one callback.
The callback body runs under a mutex; concurrency is serialized by that
lock, so the callback is modelled as a sequential state transition on
the cached snapshot. -/

/-- PoolStat is one pgxpool.Stat snapshot: the twelve counters read by
the callback, already converted to the int64 values it observes
(acquireDuration in nanoseconds). -/
structure PoolStat where
  acquireCount : Int
  acquireDuration : Int
  acquiredConns : Int
  canceledAcquireCount : Int
  constructingConns : Int
  emptyAcquireCount : Int
  idleConns : Int
  maxConns : Int
  maxIdleDestroyCount : Int
  maxLifetimeDestroyCount : Int
  newConnsCount : Int
  totalConns : Int
deriving DecidableEq

/-- StatsCacheState is the callback's closed-over state: the cached
snapshot pointer (`none` models the initial nil *pgxpool.Stat) and the
time of the last read (0 models Go's zero time.Time). -/
structure StatsCacheState where
  dbStats : Option PoolStat
  lastDBStats : Nat
deriving DecidableEq

/-- initialStatsState is the state right after recordStats returns. -/
def initialStatsState : StatsCacheState := ⟨none, 0⟩

/-- Observation is one o.ObserveInt64 call: instrument name, value, and
the attribute set passed via observeOptions. -/
structure Observation where
  instrument : Str
  value : Int
  attrs : List Attr
deriving DecidableEq

/-- The twelve metric names, in the order the source creates the
instruments. -/
def instrumentNames : List Str :=
  ["pgxpool.acquires".data,
   "pgxpool.acquire_duration".data,
   "pgxpool.acquired_connections".data,
   "pgxpool.canceled_acquires".data,
   "pgxpool.constructing_connections".data,
   "pgxpool.empty_acquire".data,
   "pgxpool.idle_connections".data,
   "pgxpool.max_connections".data,
   "pgxpool.max_idle_destroys".data,
   "pgxpool.max_lifetime_destroys".data,
   "pgxpool.new_connections".data,
   "pgxpool.total_connections".data]

/-- observeAll is the fixed block of twelve ObserveInt64 calls in the
callback body, all reading the same snapshot `s` and all tagged with the
same observeOptions attribute set. -/
def observeAll (s : PoolStat) (attrs : List Attr) : List Observation :=
  [⟨"pgxpool.acquires".data, s.acquireCount, attrs⟩,
   ⟨"pgxpool.acquire_duration".data, s.acquireDuration, attrs⟩,
   ⟨"pgxpool.acquired_connections".data, s.acquiredConns, attrs⟩,
   ⟨"pgxpool.canceled_acquires".data, s.canceledAcquireCount, attrs⟩,
   ⟨"pgxpool.constructing_connections".data, s.constructingConns, attrs⟩,
   ⟨"pgxpool.empty_acquire".data, s.emptyAcquireCount, attrs⟩,
   ⟨"pgxpool.idle_connections".data, s.idleConns, attrs⟩,
   ⟨"pgxpool.max_connections".data, s.maxConns, attrs⟩,
   ⟨"pgxpool.max_idle_destroys".data, s.maxIdleDestroyCount, attrs⟩,
   ⟨"pgxpool.max_lifetime_destroys".data, s.maxLifetimeDestroyCount, attrs⟩,
   ⟨"pgxpool.new_connections".data, s.newConnsCount, attrs⟩,
   ⟨"pgxpool.total_connections".data, s.totalConns, attrs⟩]

/-- statsCallback is one invocation of the registered callback:
re-read the pool statistics (`currentStat` is what db.Stat() would
return now) when at least `minInterval` has elapsed since the last
read, then observe all twelve values from the cached snapshot.  The
returned Bool reports whether this invocation read the pool; the
observation list is `none` when the cached snapshot is still nil
(a Go nil-pointer dereference). -/
def statsCallback (minInterval : Nat) (currentStat : PoolStat)
    (observeAttrs : List Attr) (now : Nat) (st : StatsCacheState) :
    StatsCacheState × Bool × Option (List Observation) :=
  let didRead : Bool := decide (minInterval ≤ now - st.lastDBStats)
  let st := if didRead then ⟨some currentStat, now⟩ else st
  match st.dbStats with
  | none => (st, didRead, none)
  | some s => (st, didRead, some (observeAll s observeAttrs))

/-- SetupResult is the observable outcome of recordStats: which
instruments were created (in order), whether the callback was
registered, and the returned error. -/
structure SetupResult where
  created : List Str
  callbackRegistered : Bool
  err : Option GoErr
deriving DecidableEq

/-- createInstruments folds the fixed sequence of instrument creations:
stop at the first failure, reporting the created names and the failing
name with its error. -/
def createInstruments (create : Str → Option GoErr) :
    List Str → List Str × Option (Str × GoErr)
  | [] => ([], none)
  | n :: rest =>
    match create n with
    | some e => ([], some (n, e))
    | none =>
      let (cs, f) := createInstruments create rest
      (n :: cs, f)

/-- recordStats models the setup function of the same name:
`create n` is the meter's instrument-creation outcome for metric name
`n`, and `registerErr` is the error RegisterCallback would return.  On
the first creation failure it returns the wrapped error naming that
metric and registers nothing; otherwise the result is the
callback-registration outcome. -/
def recordStats (create : Str → Option GoErr) (registerErr : Option GoErr) :
    SetupResult :=
  match createInstruments create instrumentNames with
  | (cs, some (n, e)) => ⟨cs, false, some (.wrapMetric n e)⟩
  | (cs, none) => ⟨cs, true, registerErr⟩

end Otelpgx

namespace Otelpgx

/-! ## Lemmas about the tokenizing helpers -/

theorem fieldsGo_head_acc (s : Str) : ∀ acc : Str, acc ≠ [] →
    (fieldsGo s acc).head? =
      some (acc.reverse ++ s.takeWhile (fun c => !(goIsSpace c))) := by
  induction s with
  | nil =>
    intro acc hacc
    simp [fieldsGo, List.isEmpty_iff, hacc]
  | cons c rest ih =>
    intro acc hacc
    by_cases hc : goIsSpace c
    · simp [fieldsGo, hc, List.isEmpty_iff, hacc]
    · have h := ih (c :: acc) (by simp)
      simp only [fieldsGo, hc, if_false, Bool.false_eq_true]
      rw [h]
      simp [hc]

theorem goFields_of_all_space (s : Str) (h : s.all goIsSpace = true) :
    goFields s = [] := by
  induction s with
  | nil => rfl
  | cons c rest ih =>
    simp only [List.all_cons, Bool.and_eq_true] at h
    simpa [goFields, fieldsGo, h.1] using ih h.2

theorem goFields_head_of_not_all (s : Str) (h : ¬ s.all goIsSpace = true) :
    (goFields s).head? = some (firstToken s) := by
  induction s with
  | nil => simp at h
  | cons c rest ih =>
    by_cases hc : goIsSpace c
    · have hrest : ¬ rest.all goIsSpace = true := by
        intro hr
        exact h (by simp [List.all_cons, hc, hr])
      have := ih hrest
      simpa [goFields, fieldsGo, hc, firstToken] using this
    · have h' := fieldsGo_head_acc rest [c] (by simp)
      simp only [goFields, fieldsGo, hc, if_false, Bool.false_eq_true]
      rw [h']
      simp [firstToken, hc]

theorem sqlOperationNameDefault_characterization (stmt : Str) :
    sqlOperationNameDefault stmt =
      if stmt.all goIsSpace then sqlOperationUnknown
      else goToUpper (firstToken stmt) := by
  by_cases h : stmt.all goIsSpace
  · simp [sqlOperationNameDefault, goFields_of_all_space stmt h, h]
  · have hh := goFields_head_of_not_all stmt h
    cases hg : goFields stmt with
    | nil => rw [hg] at hh; simp at hh
    | cons w ws =>
      rw [hg] at hh
      simp only [List.head?_cons, Option.some.injEq] at hh
      simp [sqlOperationNameDefault, hg, h, hh]

theorem indexFunc_none_all (p : Char → Bool) (l : Str)
    (h : indexFunc p l = none) : l.all (fun c => !(p c)) = true := by
  induction l with
  | nil => rfl
  | cons c rest ih =>
    by_cases hc : p c
    · simp [indexFunc, hc] at h
    · cases hr : indexFunc p rest with
      | none => simp [List.all_cons, hc, ih hr]
      | some j => simp [indexFunc, hc, hr] at h

theorem indexFunc_some_take (p : Char → Bool) :
    ∀ (l : Str) (i : Nat), indexFunc p l = some i →
      l.take i = l.takeWhile (fun c => !(p c)) := by
  intro l
  induction l with
  | nil => intro i h; simp [indexFunc] at h
  | cons c rest ih =>
    intro i h
    by_cases hc : p c
    · simp only [indexFunc, hc, if_true, Option.some.injEq] at h
      subst h
      simp [hc]
    · cases hr : indexFunc p rest with
      | none => simp [indexFunc, hc, hr] at h
      | some j =>
        simp only [indexFunc, hc, if_false, Bool.false_eq_true, hr] at h
        simp only [Option.map, Option.some.injEq] at h
        subst h
        simp [hc, List.take_succ_cons, ih j hr]

theorem takeWhile_append_of_all (p : Char → Bool) (l₁ l₂ : Str)
    (h : l₂.all p = true) :
    (l₁ ++ l₂).takeWhile (fun c => !(p c)) = l₁.takeWhile (fun c => !(p c)) := by
  induction l₁ with
  | nil =>
    cases l₂ with
    | nil => rfl
    | cons c rest =>
      simp only [List.all_cons, Bool.and_eq_true] at h
      simp [h.1]
  | cons c rest ih =>
    by_cases hc : p c
    · simp [hc]
    · simp [hc, ih]

theorem trimL_decomp (s : Str) :
    ∃ l₂, s.dropWhile goIsSpace = trimL s ++ l₂ ∧ l₂.all goIsSpace = true := by
  refine ⟨((s.dropWhile goIsSpace).reverse.takeWhile goIsSpace).reverse, ?_, ?_⟩
  · have h := congrArg List.reverse
      (List.takeWhile_append_dropWhile goIsSpace (s.dropWhile goIsSpace).reverse)
    rw [List.reverse_append, List.reverse_reverse] at h
    rw [trimL]
    exact h.symm
  · rw [List.all_eq_true]
    intro x hx
    rw [List.mem_reverse] at hx
    exact List.mem_takeWhile_imp hx

theorem all_space_of_dropWhile_all (s : Str)
    (h : (s.dropWhile goIsSpace).all goIsSpace = true) : s.all goIsSpace = true := by
  rw [← List.takeWhile_append_dropWhile goIsSpace s, List.all_append]
  refine Bool.and_eq_true_iff.mpr ⟨?_, h⟩
  rw [List.all_eq_true]
  intro x hx
  exact List.mem_takeWhile_imp hx

theorem defaultSpanNameCtxFunc_characterization (stmt : Str) :
    defaultSpanNameCtxFunc stmt =
      if stmt.all goIsSpace then sqlOperationUnknown
      else goToUpper (firstToken stmt) := by
  by_cases h : stmt.all goIsSpace
  · have hnil : stmt.dropWhile goIsSpace = [] := by
      rw [List.dropWhile_eq_nil_iff]
      exact fun x hx => List.all_eq_true.mp h x hx
    have ht : trimL stmt = [] := by simp [trimL, hnil]
    simp [defaultSpanNameCtxFunc, ht, indexFunc, h]
  · obtain ⟨l₂, hdecomp, hall⟩ := trimL_decomp stmt
    have hu_not_all : ¬ (stmt.dropWhile goIsSpace).all goIsSpace = true :=
      fun hu => h (all_space_of_dropWhile_all stmt hu)
    have ht_ne : trimL stmt ≠ [] := by
      intro ht
      rw [ht, List.nil_append] at hdecomp
      exact hu_not_all (hdecomp ▸ hall)
    have htake : (trimL stmt).takeWhile (fun c => !(goIsSpace c)) = firstToken stmt := by
      rw [firstToken, hdecomp]
      exact (takeWhile_append_of_all goIsSpace (trimL stmt) l₂ hall).symm
    cases hidx : indexFunc goIsSpace (trimL stmt) with
    | none =>
      have hallt := indexFunc_none_all goIsSpace (trimL stmt) hidx
      have hself : (trimL stmt).takeWhile (fun c => !(goIsSpace c)) = trimL stmt :=
        List.takeWhile_eq_self_iff.mpr (fun x hx => List.all_eq_true.mp hallt x hx)
      have hlen : (trimL stmt).length > 0 := List.length_pos.mpr ht_ne
      simp [defaultSpanNameCtxFunc, hidx, hlen, h, ← htake, hself]
    | some i =>
      have := indexFunc_some_take goIsSpace (trimL stmt) i hidx
      simp [defaultSpanNameCtxFunc, hidx, this, h, htake]

theorem spanNameFromLines_of_no_annotation (ls : List Str)
    (h : ∀ l ∈ ls, markerOf l = none ∨
      ∀ marker, markerOf l = some marker →
        startsWithL "name".data (trimL (l.drop marker.length)) = false) :
    spanNameFromLines ls = some sqlOperationUnknown := by
  induction ls with
  | nil => rfl
  | cons l rest ih =>
    have hrest := ih (fun x hx => h x (List.mem_cons_of_mem l hx))
    rcases h l (List.mem_cons_self l rest) with hl | hl
    · simp [spanNameFromLines, hl, hrest]
    · cases hm : markerOf l with
      | none => simp [spanNameFromLines, hm, hrest]
      | some marker =>
        have hname := hl marker hm
        simp [spanNameFromLines, hm, hname, hrest]

/-! ## The claims -/

/-- C1: the claim states the annotation-aware policy returns a string for
every statement and yields the sentinel on any malformed marker line,
never panicking — in particular on a marker line with exactly three
tokens such as "-- name: GetUsers".  The code violates this: that line
passes the `len(part) == 2` guard and then indexes `part[3]`, an
index-out-of-range panic, modelled here by the policy evaluating to
`none`. -/
theorem claimC1_three_token_marker_panics :
    defaultSpanNameFunc "-- name: GetUsers\nSELECT * FROM users".data = none := by
  decide

/-- C2: the default naming policy returns the sentinel "UNKNOWN" on
whitespace-only or empty statements and the upper-cased first
whitespace-delimited token otherwise — for both the Go 1.24
implementation and the legacy implementation. -/
theorem claimC2_default_policy (stmt : Str) :
    sqlOperationNameDefault stmt =
      (if stmt.all goIsSpace then sqlOperationUnknown
       else goToUpper (firstToken stmt))
    ∧ defaultSpanNameCtxFunc stmt =
      (if stmt.all goIsSpace then sqlOperationUnknown
       else goToUpper (firstToken stmt)) :=
  ⟨sqlOperationNameDefault_characterization stmt,
   defaultSpanNameCtxFunc_characterization stmt⟩

/-- C3: a well-formed leading annotation in any of the three comment
styles yields the provided-name and provided-kind joined by a space, and
a statement none of whose lines carries a recognized comment marker
followed by the "name" annotation token yields the sentinel. -/
theorem claimC3_annotation_policy :
    defaultSpanNameFunc "-- name: GetUsers :many\nSELECT * FROM users".data =
      some "GetUsers :many".data
    ∧ defaultSpanNameFunc "/* name: GetBooks :many */\nSELECT * FROM books".data =
      some "GetBooks :many".data
    ∧ defaultSpanNameFunc "# name: GetRecords :many\nSELECT * FROM records".data =
      some "GetRecords :many".data
    ∧ ∀ query : Str,
        (∀ line ∈ splitOnChar '\n' query, markerOf line = none ∨
          ∀ marker, markerOf line = some marker →
            startsWithL "name".data (trimL (line.drop marker.length)) = false) →
        defaultSpanNameFunc query = some sqlOperationUnknown := by
  refine ⟨by decide, by decide, by decide, ?_⟩
  intro query h
  exact spanNameFromLines_of_no_annotation (splitOnChar '\n' query) h

/-- Witness for C3 at two concrete statements: one with no comment
marker anywhere and one whose comment line lacks the name annotation. -/
theorem claimC3_annotation_policy_witness :
    defaultSpanNameFunc "SELECT * FROM users".data = some sqlOperationUnknown
    ∧ defaultSpanNameFunc "-- foo \nSELECT * FROM users".data = some sqlOperationUnknown :=
  ⟨claimC3_annotation_policy.2.2.2 "SELECT * FROM users".data (by decide),
   claimC3_annotation_policy.2.2.2 "-- foo \nSELECT * FROM users".data (by decide)⟩

/-! ## Lemmas about context and metrics plumbing -/

theorem isRecordingCtx_startTime (t : Nat) (ctx : Ctx) :
    isRecordingCtx (CtxEntry.startTime t :: ctx) = isRecordingCtx ctx := rfl

theorem lookupStartTime_startTime (t : Nat) (ctx : Ctx) :
    lookupStartTime (CtxEntry.startTime t :: ctx) = some t := rfl

theorem lookupStartTime_activeSpan (r : Bool) (ctx : Ctx) :
    lookupStartTime (CtxEntry.activeSpan r :: ctx) = lookupStartTime ctx := rfl

theorem incrementOperationErrorCount_durations (m : Metrics) (err : Option GoErr)
    (op : PgxOperation) :
    (incrementOperationErrorCount m err op).durations = m.durations := by
  cases err with
  | none => rfl
  | some e =>
    by_cases he : isNoRows e <;> simp [incrementOperationErrorCount, he]

/-- C4: nil errors and the "no rows" sentinel (directly or wrapped) leave
the span and the error counter untouched; any other error increments the
operation's error counter by exactly one (leaving other operations'
counters unchanged), marks the span errored with the error recorded, and
attaches the SQLSTATE code as pgx.sql_state when the error carries a
PgError. -/
theorem claimC4_end_hook_error_classification (span : Span) (m : Metrics)
    (err : Option GoErr) (op : PgxOperation) :
    ((err = none ∨ ∃ e, err = some e ∧ isNoRows e = true) →
      recordSpanError span err = span ∧ incrementOperationErrorCount m err op = m)
    ∧ (∀ e, err = some e → isNoRows e = false →
        (incrementOperationErrorCount m err op).errEvents = m.errEvents ++ [op]
        ∧ (incrementOperationErrorCount m err op).errEvents.count op =
            m.errEvents.count op + 1
        ∧ (∀ op' : PgxOperation, op' ≠ op →
            (incrementOperationErrorCount m err op).errEvents.count op' =
              m.errEvents.count op')
        ∧ (recordSpanError span err).status = .error (errMsg e)
        ∧ (recordSpanError span err).recordedErrors = span.recordedErrors ++ [e]
        ∧ (∀ code, asPgError e = some code →
            sqlStateAttr code ∈ (recordSpanError span err).attrs)) := by
  constructor
  · rintro (rfl | ⟨e, rfl, he⟩)
    · exact ⟨rfl, rfl⟩
    · simp [recordSpanError, incrementOperationErrorCount, he]
  · rintro e rfl hnr
    refine ⟨?_, ?_, ?_, ?_, ?_, ?_⟩
    · simp [incrementOperationErrorCount, hnr]
    · simp [incrementOperationErrorCount, hnr, List.count_append]
    · intro op' hne
      simp [incrementOperationErrorCount, hnr, List.count_append,
        List.count_cons, hne]
    · cases hpg : asPgError e <;>
        simp [recordSpanError, hnr, hpg]
    · cases hpg : asPgError e <;>
        simp [recordSpanError, hnr, hpg]
    · intro code hcode
      simp [recordSpanError, hnr, hcode]

/-- Witness for C4: a concrete PgError increments the query counter and
tags the span, and a concrete wrapped "no rows" error is ignored. -/
theorem claimC4_end_hook_error_classification_witness :
    (incrementOperationErrorCount ⟨[], []⟩
        (some (.pgError "23505".data "dup".data)) .query).errEvents =
      [] ++ [PgxOperation.query]
    ∧ (recordSpanError ⟨[], .unset, [], false⟩
        (some (.pgError "23505".data "dup".data))).status =
      .error (errMsg (.pgError "23505".data "dup".data))
    ∧ sqlStateAttr "23505".data ∈
        (recordSpanError ⟨[], .unset, [], false⟩
          (some (.pgError "23505".data "dup".data))).attrs
    ∧ recordSpanError ⟨[], .unset, [], false⟩
        (some (.wrap "query failed: ".data .errNoRows)) = ⟨[], .unset, [], false⟩ := by
  have h := claimC4_end_hook_error_classification ⟨[], .unset, [], false⟩ ⟨[], []⟩
    (some (.pgError "23505".data "dup".data)) .query
  have h2 := (h.2 (.pgError "23505".data "dup".data) rfl (by decide))
  have h3 := claimC4_end_hook_error_classification ⟨[], .unset, [], false⟩ ⟨[], []⟩
    (some (.wrap "query failed: ".data .errNoRows)) .query
  exact ⟨h2.1, h2.2.2.2.1, h2.2.2.2.2.2 "23505".data rfl,
    (h3.1 (Or.inr ⟨_, rfl, by decide⟩)).1⟩

/-- C5: every start hook stamps the start timestamp into the returned
context unconditionally, and for a non-recording ambient span the
matching end hook still records an operation-duration sample computed
from that timestamp and applies the error-counter rule. -/
theorem claimC5_metrics_not_gated
    (t : TracerState) (ctx : Ctx) (now : Nat)
    (conn connCfg poolCfg : Option ConnConfig)
    (sql name tableSan : Str) (args : List Str) (batchLen : Option Nat)
    (err : Option GoErr) (rows : Int) (now2 : Nat) (m : Metrics) (span : Span) :
    lookupStartTime (TraceQueryStart t ctx now conn sql args).1 = some now
    ∧ lookupStartTime (TraceCopyFromStart t ctx now conn tableSan).1 = some now
    ∧ lookupStartTime (TraceBatchStart t ctx now conn batchLen).1 = some now
    ∧ lookupStartTime (TraceConnectStart t ctx now connCfg).1 = some now
    ∧ lookupStartTime (TracePrepareStart t ctx now conn name sql).1 = some now
    ∧ lookupStartTime (TraceAcquireStart t ctx now poolCfg).1 = some now
    ∧ (isRecordingCtx ctx = false →
        ((TraceQueryEnd (TraceQueryStart t ctx now conn sql args).1
            span err rows now2 m).2.durations =
          m.durations ++ [(.query, (now2 - now) / 1000000)]
        ∧ (TraceQueryEnd (TraceQueryStart t ctx now conn sql args).1
            span err rows now2 m).2.errEvents =
          (incrementOperationErrorCount m err .query).errEvents)
        ∧ ((TraceCopyFromEnd (TraceCopyFromStart t ctx now conn tableSan).1
            span err rows now2 m).2.durations =
          m.durations ++ [(.copy, (now2 - now) / 1000000)]
        ∧ (TraceCopyFromEnd (TraceCopyFromStart t ctx now conn tableSan).1
            span err rows now2 m).2.errEvents =
          (incrementOperationErrorCount m err .copy).errEvents)
        ∧ ((TraceBatchEnd (TraceBatchStart t ctx now conn batchLen).1
            span err now2 m).2.durations =
          m.durations ++ [(.batch, (now2 - now) / 1000000)]
        ∧ (TraceBatchEnd (TraceBatchStart t ctx now conn batchLen).1
            span err now2 m).2.errEvents =
          (incrementOperationErrorCount m err .batch).errEvents)
        ∧ ((TraceConnectEnd (TraceConnectStart t ctx now connCfg).1
            span err now2 m).2.durations =
          m.durations ++ [(.connect, (now2 - now) / 1000000)]
        ∧ (TraceConnectEnd (TraceConnectStart t ctx now connCfg).1
            span err now2 m).2.errEvents =
          (incrementOperationErrorCount m err .connect).errEvents)
        ∧ ((TracePrepareEnd (TracePrepareStart t ctx now conn name sql).1
            span err now2 m).2.durations =
          m.durations ++ [(.prepare, (now2 - now) / 1000000)]
        ∧ (TracePrepareEnd (TracePrepareStart t ctx now conn name sql).1
            span err now2 m).2.errEvents =
          (incrementOperationErrorCount m err .prepare).errEvents)
        ∧ ((TraceAcquireEnd (TraceAcquireStart t ctx now poolCfg).1
            span err now2 m).2.durations =
          m.durations ++ [(.acquire, (now2 - now) / 1000000)]
        ∧ (TraceAcquireEnd (TraceAcquireStart t ctx now poolCfg).1
            span err now2 m).2.errEvents =
          (incrementOperationErrorCount m err .acquire).errEvents)) := by
  refine ⟨?_, ?_, ?_, ?_, ?_, ?_, ?_⟩
  · by_cases hr : isRecordingCtx ctx <;>
      simp [TraceQueryStart, isRecordingCtx_startTime, hr, lookupStartTime]
  · by_cases hr : isRecordingCtx ctx <;>
      simp [TraceCopyFromStart, isRecordingCtx_startTime, hr, lookupStartTime]
  · by_cases hr : isRecordingCtx ctx <;>
      simp [TraceBatchStart, isRecordingCtx_startTime, hr, lookupStartTime]
  · by_cases hr : isRecordingCtx ctx <;>
      simp [TraceConnectStart, isRecordingCtx_startTime, hr, lookupStartTime]
  · by_cases hr : isRecordingCtx ctx <;>
      simp [TracePrepareStart, isRecordingCtx_startTime, hr, lookupStartTime]
  · by_cases hr : isRecordingCtx ctx <;>
      simp [TraceAcquireStart, isRecordingCtx_startTime, hr, lookupStartTime]
  · intro hr
    refine ⟨⟨?_, ?_⟩, ⟨?_, ?_⟩, ⟨?_, ?_⟩, ⟨?_, ?_⟩, ⟨?_, ?_⟩, ⟨?_, ?_⟩⟩ <;>
      simp [TraceQueryStart, TraceCopyFromStart, TraceBatchStart,
        TraceConnectStart, TracePrepareStart, TraceAcquireStart,
        TraceQueryEnd, TraceCopyFromEnd, TraceBatchEnd,
        TraceConnectEnd, TracePrepareEnd, TraceAcquireEnd,
        isRecordingCtx_startTime, hr, recordOperationDuration,
        lookupStartTime, incrementOperationErrorCount_durations]

/-- Witness for C5 with a concrete configuration, an empty (hence
non-recording) ambient context, start time 5ns and end time 2000005ns:
a 2ms duration sample is recorded although no span was opened. -/
theorem claimC5_metrics_not_gated_witness :
    lookupStartTime (TraceQueryStart ⟨[], false, fun s => s, false, false, false, false⟩
        [] 5 none "SELECT 1".data []).1 = some 5
    ∧ (TraceQueryEnd (TraceQueryStart ⟨[], false, fun s => s, false, false, false, false⟩
        [] 5 none "SELECT 1".data []).1 ⟨[], .unset, [], false⟩ none 0 2000005 ⟨[], []⟩).2.durations =
      [] ++ [(.query, (2000005 - 5) / 1000000)] := by
  have h := claimC5_metrics_not_gated ⟨[], false, fun s => s, false, false, false, false⟩
    [] 5 none none none "SELECT 1".data [] [] [] none none 0 2000005 ⟨[], []⟩
    ⟨[], .unset, [], false⟩
  exact ⟨h.1, ((h.2.2.2.2.2.2 rfl).1).1⟩

/-- C6: when the ambient span is not recording, every start hook returns
the input context with exactly the start-timestamp entry added, starts
no span, and assembles no attribute list. -/
theorem claimC6_start_hook_short_circuit
    (t : TracerState) (ctx : Ctx) (now : Nat)
    (conn connCfg poolCfg : Option ConnConfig)
    (sql name tableSan : Str) (args : List Str) (batchLen : Option Nat)
    (h : isRecordingCtx ctx = false) :
    TraceQueryStart t ctx now conn sql args = (CtxEntry.startTime now :: ctx, [])
    ∧ TraceCopyFromStart t ctx now conn tableSan = (CtxEntry.startTime now :: ctx, [])
    ∧ TraceBatchStart t ctx now conn batchLen = (CtxEntry.startTime now :: ctx, [])
    ∧ TraceConnectStart t ctx now connCfg = (CtxEntry.startTime now :: ctx, [])
    ∧ TracePrepareStart t ctx now conn name sql = (CtxEntry.startTime now :: ctx, [])
    ∧ TraceAcquireStart t ctx now poolCfg = (CtxEntry.startTime now :: ctx, []) := by
  refine ⟨?_, ?_, ?_, ?_, ?_, ?_⟩ <;>
    simp [TraceQueryStart, TraceCopyFromStart, TraceBatchStart,
      TraceConnectStart, TracePrepareStart, TraceAcquireStart,
      isRecordingCtx_startTime, h]

/-- Witness for C6: a context whose ambient span exists but is not
recording short-circuits the query start hook. -/
theorem claimC6_start_hook_short_circuit_witness :
    isRecordingCtx [CtxEntry.activeSpan false] = false
    ∧ TraceQueryStart ⟨[dbSystemPostgreSQL], true, fun s => s, true, true, true, true⟩
        [CtxEntry.activeSpan false] 7 none "SELECT 1".data [] =
      (CtxEntry.startTime 7 :: [CtxEntry.activeSpan false], []) :=
  ⟨by decide,
    (claimC6_start_hook_short_circuit
      ⟨[dbSystemPostgreSQL], true, fun s => s, true, true, true, true⟩
      [CtxEntry.activeSpan false] 7 none none none "SELECT 1".data
      "n".data "t".data [] none (by decide)).1⟩

/-! ## Lemmas about the stats sampler -/

theorem statsCallback_first (minInterval t1 : Nat) (s1 : PoolStat)
    (attrs : List Attr) (h1 : minInterval ≤ t1) :
    statsCallback minInterval s1 attrs t1 initialStatsState =
      (⟨some s1, t1⟩, true, some (observeAll s1 attrs)) := by
  simp [statsCallback, initialStatsState, h1]

theorem statsCallback_cached (minInterval now : Nat) (s sCur : PoolStat)
    (tLast : Nat) (attrs : List Attr) (h : now - tLast < minInterval) :
    statsCallback minInterval sCur attrs now ⟨some s, tLast⟩ =
      (⟨some s, tLast⟩, false, some (observeAll s attrs)) := by
  simp [statsCallback, Nat.not_le.mpr h]

theorem statsCallback_refresh (minInterval now : Nat) (st : StatsCacheState)
    (sCur : PoolStat) (attrs : List Attr) (h : minInterval ≤ now - st.lastDBStats) :
    statsCallback minInterval sCur attrs now st =
      (⟨some sCur, now⟩, true, some (observeAll sCur attrs)) := by
  simp [statsCallback, h]

theorem createInstruments_first_failure (create : Str → Option GoErr)
    (pre : List Str) (n : Str) (post : List Str)
    (hpre : ∀ p ∈ pre, create p = none) (e : GoErr) (hn : create n = some e) :
    createInstruments create (pre ++ n :: post) = (pre, some (n, e)) := by
  induction pre with
  | nil => simp [createInstruments, hn]
  | cons a rest ih =>
    have ha : create a = none := hpre a (List.mem_cons_self a rest)
    have hr := ih (fun x hx => hpre x (List.mem_cons_of_mem a hx))
    simp [createInstruments, ha, hr]

theorem createInstruments_all_ok (create : Str → Option GoErr) (l : List Str)
    (h : ∀ p ∈ l, create p = none) :
    createInstruments create l = (l, none) := by
  induction l with
  | nil => rfl
  | cons a rest ih =>
    have ha : create a = none := h a (List.mem_cons_self a rest)
    have hr := ih (fun x hx => h x (List.mem_cons_of_mem a hx))
    simp [createInstruments, ha, hr]

/-- C7: with the configured minimum read interval, two callback
invocations less than the interval apart perform exactly one underlying
pool-statistics read combined (the second reuses the cached snapshot),
while two invocations at least the interval apart perform two reads. -/
theorem claimC7_rate_limiting (minInterval t1 t2 : Nat) (s1 s2 : PoolStat)
    (attrs : List Attr) (h1 : minInterval ≤ t1) (h12 : t1 ≤ t2) :
    (t2 - t1 < minInterval →
      (statsCallback minInterval s1 attrs t1 initialStatsState).2.1 = true
      ∧ (statsCallback minInterval s2 attrs t2
          (statsCallback minInterval s1 attrs t1 initialStatsState).1).2.1 = false)
    ∧ (minInterval ≤ t2 - t1 →
      (statsCallback minInterval s1 attrs t1 initialStatsState).2.1 = true
      ∧ (statsCallback minInterval s2 attrs t2
          (statsCallback minInterval s1 attrs t1 initialStatsState).1).2.1 = true) := by
  have hfst := statsCallback_first minInterval t1 s1 attrs h1
  constructor
  · intro hlt
    rw [hfst]
    have hsnd := statsCallback_cached minInterval t2 s1 s2 t1 attrs hlt
    rw [hsnd]
    exact ⟨rfl, rfl⟩
  · intro hge
    rw [hfst]
    have hsnd := statsCallback_refresh minInterval t2 ⟨some s1, t1⟩ s2 attrs hge
    rw [hsnd]
    exact ⟨rfl, rfl⟩

/-- Witness for C7: interval 1s (1e9 ns); invocations at 1e9 and 1.5e9
yield one combined read, invocations at 1e9 and 2.5e9 yield two. -/
theorem claimC7_rate_limiting_witness :
    ((statsCallback 1000000000 ⟨1, 2, 3, 4, 5, 6, 7, 8, 9, 10, 11, 12⟩ []
        1000000000 initialStatsState).2.1 = true
      ∧ (statsCallback 1000000000 ⟨2, 3, 4, 5, 6, 7, 8, 9, 10, 11, 12, 13⟩ []
          1500000000 (statsCallback 1000000000 ⟨1, 2, 3, 4, 5, 6, 7, 8, 9, 10, 11, 12⟩ []
            1000000000 initialStatsState).1).2.1 = false)
    ∧ ((statsCallback 1000000000 ⟨1, 2, 3, 4, 5, 6, 7, 8, 9, 10, 11, 12⟩ []
        1000000000 initialStatsState).2.1 = true
      ∧ (statsCallback 1000000000 ⟨2, 3, 4, 5, 6, 7, 8, 9, 10, 11, 12, 13⟩ []
          2500000000 (statsCallback 1000000000 ⟨1, 2, 3, 4, 5, 6, 7, 8, 9, 10, 11, 12⟩ []
            1000000000 initialStatsState).1).2.1 = true) :=
  ⟨(claimC7_rate_limiting 1000000000 1000000000 1500000000
      ⟨1, 2, 3, 4, 5, 6, 7, 8, 9, 10, 11, 12⟩ ⟨2, 3, 4, 5, 6, 7, 8, 9, 10, 11, 12, 13⟩ []
      (by decide) (by decide)).1 (by decide),
   (claimC7_rate_limiting 1000000000 1000000000 2500000000
      ⟨1, 2, 3, 4, 5, 6, 7, 8, 9, 10, 11, 12⟩ ⟨2, 3, 4, 5, 6, 7, 8, 9, 10, 11, 12, 13⟩ []
      (by decide) (by decide)).2 (by decide)⟩

/-- C8: within one callback invocation all twelve observed values derive
from the same pool-statistics snapshot and carry the same attribute set:
on the cached path the second invocation reports every one of the twelve
values from the first read's snapshot `s1`, none from the pool's current
state `s2`. -/
theorem claimC8_snapshot_atomicity (minInterval t1 t2 : Nat) (s1 s2 : PoolStat)
    (attrs : List Attr) (h1 : minInterval ≤ t1) (h12 : t1 ≤ t2)
    (h2 : t2 - t1 < minInterval) :
    (statsCallback minInterval s2 attrs t2
        (statsCallback minInterval s1 attrs t1 initialStatsState).1).2.2 =
      some [⟨"pgxpool.acquires".data, s1.acquireCount, attrs⟩,
        ⟨"pgxpool.acquire_duration".data, s1.acquireDuration, attrs⟩,
        ⟨"pgxpool.acquired_connections".data, s1.acquiredConns, attrs⟩,
        ⟨"pgxpool.canceled_acquires".data, s1.canceledAcquireCount, attrs⟩,
        ⟨"pgxpool.constructing_connections".data, s1.constructingConns, attrs⟩,
        ⟨"pgxpool.empty_acquire".data, s1.emptyAcquireCount, attrs⟩,
        ⟨"pgxpool.idle_connections".data, s1.idleConns, attrs⟩,
        ⟨"pgxpool.max_connections".data, s1.maxConns, attrs⟩,
        ⟨"pgxpool.max_idle_destroys".data, s1.maxIdleDestroyCount, attrs⟩,
        ⟨"pgxpool.max_lifetime_destroys".data, s1.maxLifetimeDestroyCount, attrs⟩,
        ⟨"pgxpool.new_connections".data, s1.newConnsCount, attrs⟩,
        ⟨"pgxpool.total_connections".data, s1.totalConns, attrs⟩] := by
  rw [statsCallback_first minInterval t1 s1 attrs h1]
  rw [statsCallback_cached minInterval t2 s1 s2 t1 attrs h2]
  rfl

/-- Witness for C8: between the two invocations every pool counter
changes, yet the second invocation observes the first snapshot. -/
theorem claimC8_snapshot_atomicity_witness :
    (statsCallback 1000000000 ⟨2, 3, 4, 5, 6, 7, 8, 9, 10, 11, 12, 13⟩
        [dbSystemPostgreSQL] 1500000000
        (statsCallback 1000000000 ⟨1, 2, 3, 4, 5, 6, 7, 8, 9, 10, 11, 12⟩
          [dbSystemPostgreSQL] 1000000000 initialStatsState).1).2.2 =
      some [⟨"pgxpool.acquires".data, 1, [dbSystemPostgreSQL]⟩,
        ⟨"pgxpool.acquire_duration".data, 2, [dbSystemPostgreSQL]⟩,
        ⟨"pgxpool.acquired_connections".data, 3, [dbSystemPostgreSQL]⟩,
        ⟨"pgxpool.canceled_acquires".data, 4, [dbSystemPostgreSQL]⟩,
        ⟨"pgxpool.constructing_connections".data, 5, [dbSystemPostgreSQL]⟩,
        ⟨"pgxpool.empty_acquire".data, 6, [dbSystemPostgreSQL]⟩,
        ⟨"pgxpool.idle_connections".data, 7, [dbSystemPostgreSQL]⟩,
        ⟨"pgxpool.max_connections".data, 8, [dbSystemPostgreSQL]⟩,
        ⟨"pgxpool.max_idle_destroys".data, 9, [dbSystemPostgreSQL]⟩,
        ⟨"pgxpool.max_lifetime_destroys".data, 10, [dbSystemPostgreSQL]⟩,
        ⟨"pgxpool.new_connections".data, 11, [dbSystemPostgreSQL]⟩,
        ⟨"pgxpool.total_connections".data, 12, [dbSystemPostgreSQL]⟩] :=
  claimC8_snapshot_atomicity 1000000000 1000000000 1500000000
    ⟨1, 2, 3, 4, 5, 6, 7, 8, 9, 10, 11, 12⟩ ⟨2, 3, 4, 5, 6, 7, 8, 9, 10, 11, 12, 13⟩
    [dbSystemPostgreSQL] (by decide) (by decide) (by decide)

/-- C9: if creating any one of the twelve observable instruments fails,
recordStats returns the wrapped error naming that instrument's metric
name, registers no callback, and creates no later instrument; if all
twelve creations succeed, the result is the callback-registration
outcome. -/
theorem claimC9_setup_failure (create : Str → Option GoErr)
    (registerErr : Option GoErr) :
    ((∀ nm ∈ instrumentNames, create nm = none) →
      recordStats create registerErr = ⟨instrumentNames, true, registerErr⟩)
    ∧ (∀ pre n post e, instrumentNames = pre ++ n :: post →
        (∀ p ∈ pre, create p = none) → create n = some e →
        recordStats create registerErr = ⟨pre, false, some (.wrapMetric n e)⟩) := by
  constructor
  · intro h
    rw [recordStats, createInstruments_all_ok create instrumentNames h]
  · intro pre n post e hsplit hpre hn
    rw [recordStats, hsplit, createInstruments_first_failure create pre n post hpre e hn]

/-- Witness for C9: a meter that rejects the fourth metric name causes
setup to abort with the wrapped error after creating exactly the first
three instruments, and a fully succeeding meter propagates the
registration outcome. -/
theorem claimC9_setup_failure_witness :
    recordStats (fun nm => if nm = "pgxpool.canceled_acquires".data
        then some (.strError "duplicate instrument".data) else none) none =
      ⟨["pgxpool.acquires".data, "pgxpool.acquire_duration".data,
        "pgxpool.acquired_connections".data], false,
        some (.wrapMetric "pgxpool.canceled_acquires".data
          (.strError "duplicate instrument".data))⟩
    ∧ recordStats (fun _ => none) (some (.strError "registration failed".data)) =
      ⟨instrumentNames, true, some (.strError "registration failed".data)⟩ :=
  ⟨(claimC9_setup_failure (fun nm => if nm = "pgxpool.canceled_acquires".data
        then some (.strError "duplicate instrument".data) else none) none).2
      ["pgxpool.acquires".data, "pgxpool.acquire_duration".data,
        "pgxpool.acquired_connections".data]
      "pgxpool.canceled_acquires".data
      ["pgxpool.constructing_connections".data, "pgxpool.empty_acquire".data,
        "pgxpool.idle_connections".data, "pgxpool.max_connections".data,
        "pgxpool.max_idle_destroys".data, "pgxpool.max_lifetime_destroys".data,
        "pgxpool.new_connections".data, "pgxpool.total_connections".data]
      (.strError "duplicate instrument".data) (by decide) (by decide) (by decide),
   (claimC9_setup_failure (fun _ => none)
      (some (.strError "registration failed".data))).1 (fun nm _ => rfl)⟩

/-- C10: with no custom naming function configured, the Go 1.24
implementation (strings.FieldsSeq) and the legacy implementation
(TrimSpace + IndexFunc) of sqlOperationName agree on every statement. -/
theorem claimC10_operation_name_equiv (stmt : Str) :
    sqlOperationName none stmt = defaultSpanNameCtxFunc stmt := by
  show sqlOperationNameDefault stmt = defaultSpanNameCtxFunc stmt
  rw [sqlOperationNameDefault_characterization stmt,
    defaultSpanNameCtxFunc_characterization stmt]

end Otelpgx
